import Mathlib

/-!
Shallow embedding of the specMech firmware command protocol engine
(auomoto/specMech, `Software/Atmel Studio`).  Pure computations (parsing,
checksumming, bit manipulation, BCD conversion) are translated directly
from the C sources; hardware effects (TWI bus primitives, USART output,
processor reset) are made explicit as return-code parameters, event
traces and emitted-sentence lists.  C `uint8_t` values are `Nat` with
`% 256` where C would truncate; C strings are `List Char` holding the
bytes before the terminating NUL.
-/

namespace SpecMech

/-! ## Constants from `specMech/main.c` -/

/-- Prompt flag `GREATERPROMPT` (main.c line 10): standard return prompt `>`. -/
def GREATERPROMPT : Nat := 0

/-- Prompt flag `EXCLAIMPROMPT` (main.c line 11): no-reboot-ACK prompt `!`. -/
def EXCLAIMPROMPT : Nat := 1

/-- Prompt flag `ERRORPROMPT` (main.c line 12): error line, then `>`. -/
def ERRORPROMPT : Nat := 2

/-- Constant `CVALUESIZE` (main.c line 13): size of the `cvalue` buffer. -/
def CVALUESIZE : Nat := 41

/-- Constant `CIDSIZE` (main.c line 14): size of the `cid` buffer. -/
def CIDSIZE : Nat := 9

/-- Constant `CSTACKSIZE` (main.c line 15): number of stacked-up commands allowed. -/
def CSTACKSIZE : Nat := 10

/-- The C string terminator byte, used where the code compares `*ptr` with
`'\0'`. -/
def nullChar : Char := Char.ofNat 0

/-! ## Response framer: `specMechOLD/nmea.c` -/

/-- The running XOR accumulated by `checksum_NMEA`'s loop
`for (i = 1; i < nchar; i++) checksum ^= str[i];` — an 8-bit XOR over the
bytes of the string starting at index 1 (each `char` converts to
`uint8_t`, hence the `% 256`). -/
def xorChecksum (s : List Char) : Nat :=
  (s.drop 1).foldl (fun a c => Nat.xor a (c.toNat % 256)) 0

/-- One uppercase hexadecimal digit, as produced by `sprintf "%02X"`. -/
def hexDigitUpper (n : Nat) : Char :=
  if n < 10 then Char.ofNat (48 + n) else Char.ofNat (55 + n)

/-- The two characters `sprintf "%02X"` produces for a byte value. -/
def hex2upper (n : Nat) : List Char :=
  [hexDigitUpper (n / 16), hexDigitUpper (n % 16)]

/-- Function `checksum_NMEA` (nmea.c lines 12-27): appends `*HH\r\n` to the
sentence, where `HH` is the two-uppercase-hex-digit rendering of the
8-bit XOR of the string's bytes from index 1 on. -/
def checksum_NMEA (s : List Char) : List Char :=
  s ++ '*' :: hex2upper (xorChecksum s) ++ ['\r', '\n']

/-- Reads a hexadecimal digit character back to its value (`0-9`, `A-F`). -/
def hexCharVal (c : Char) : Nat :=
  if c.toNat ≤ 57 then c.toNat - 48 else c.toNat - 55

/-- Recognizes an uppercase hexadecimal digit character. -/
def isUpperHexDigit (c : Char) : Bool :=
  (48 ≤ c.toNat && c.toNat ≤ 57) || (65 ≤ c.toNat && c.toNat ≤ 70)

/-! ## Command line parser: `specMech/main.c` `parse_cmd` / `isaletter` -/

/-- Function `isaletter` (main.c lines 224-237): a byte in `a-z` or `A-Z`. -/
def isaletter (c : Char) : Bool :=
  (97 ≤ c.toNat && c.toNat ≤ 122) || (65 ≤ c.toNat && c.toNat ≤ 90)

/-- The `while (!isaletter(*ptr)) { if (*ptr == '\0') return; ptr++; }`
scan: yields the first letter and the bytes after it, or `none` when the
terminator is reached first. -/
def skipToLetter : List Char → Option (Char × List Char)
  | [] => none
  | c :: cs => if isaletter c then some (c, cs) else skipToLetter cs

/-- The value-collection loop of `parse_cmd` (main.c lines 198-208),
running with the given fuel (`CVALUESIZE - i`).  Returns the data bytes
stored into `cvalue` and, when the loop leaves via `break` or fuel
exhaustion, the unconsumed bytes (`none` means the loop hit the string
terminator and `parse_cmd` returned). -/
def valueLoop : Nat → List Char → List Char × Option (List Char)
  | 0, rest => ([], some rest)
  | _ + 1, [] => ([], none)
  | n + 1, c :: cs =>
      if c = ';' then ([], some (c :: cs))
      else
        let r := valueLoop n cs
        (c :: r.1, r.2)

/-- The id-collection loop of `parse_cmd` (main.c lines 212-218): stores
up to `CIDSIZE` data bytes, stopping at the terminator. -/
def idLoop : Nat → List Char → List Char
  | 0, _ => []
  | _ + 1, [] => []
  | n + 1, c :: cs => c :: idLoop n cs

/-- The `ParsedCMD` struct (main.c lines 58-63), with the string buffers
abstracted to the byte sequences the parser stored in them. -/
structure ParsedCMD where
  cverb : Char
  cobject : Char
  cvalue : List Char
  cid : List Char
deriving DecidableEq, Repr

/-- Function `parse_cmd` (main.c lines 168-222): clear the fields to the `'?'`
sentinels, scan for the verb letter, then the object letter, then collect
the value up to `;` or the terminator (bounded by the value loop), then
skip one byte and collect the id (bounded by `CIDSIZE`). -/
def parse_cmd (line : List Char) : ParsedCMD :=
  match skipToLetter line with
  | none => ⟨'?', '?', [], []⟩
  | some (v, rest1) =>
    match skipToLetter rest1 with
    | none => ⟨v, '?', [], []⟩
    | some (o, rest2) =>
      match valueLoop CVALUESIZE rest2 with
      | (val, none) => ⟨v, o, val, []⟩
      | (val, some r) => ⟨v, o, val, idLoop CIDSIZE (r.drop 1)⟩

/-! ## Valve actuation: `specMech/pneu.c` -/

/-- Constant `SHUTTERBM` (pneu.c line 15): OR the existing value with this first. -/
def SHUTTERBM : Nat := 0x22

/-- Constant `SHUTTEROPEN` (pneu.c line 16): then AND with this pattern to open. -/
def SHUTTEROPEN : Nat := 0xCE

/-- Constant `SHUTTERCLOSE` (pneu.c line 17): AND with this pattern to close. -/
def SHUTTERCLOSE : Nat := 0xEC

/-- Constant `LEFTBM` (pneu.c line 19). -/
def LEFTBM : Nat := 0x44

/-- Constant `LEFTOPEN` (pneu.c line 20). -/
def LEFTOPEN : Nat := 0xAE

/-- Constant `LEFTCLOSE` (pneu.c line 21). -/
def LEFTCLOSE : Nat := 0xEA

/-- Constant `RIGHTBM` (pneu.c line 23). -/
def RIGHTBM : Nat := 0x88

/-- Constant `RIGHTOPEN` (pneu.c line 24). -/
def RIGHTOPEN : Nat := 0x6E

/-- Constant `RIGHTCLOSE` (pneu.c line 25). -/
def RIGHTCLOSE : Nat := 0xE6

/-- Outcome of one read-modify-write over the `HIGHCURRENT` MCP23008, as
seen by `set_valves`: the return code of `read_MCP23008(HIGHCURRENT,
GPIO, &old_state)`, the `old_state` byte it delivered, and the return
code of `write_MCP23008(HIGHCURRENT, OLAT, new_state)`. -/
structure RMWEnv where
  readErr : Nat
  old : Nat
  writeErr : Nat
deriving DecidableEq, Repr

/-- Result of `set_valves`: its return value, and the byte handed to the
port-expander write call when that call was reached (`none` when the read
failed and no write was issued). -/
structure ValveRes where
  retval : Nat
  written : Option Nat
deriving DecidableEq, Repr

/-- Function `set_valves` (pneu.c lines 214-231): read the current valve state;
on read failure return that error; otherwise compute
`new_state = (old_state | bitmap) & action`, write it, and return the
write's error code (0 on success). -/
def set_valves (bitmap action : Nat) (env : RMWEnv) : ValveRes :=
  if env.readErr ≠ 0 then ⟨env.readErr, none⟩
  else
    let new_state := (env.old ||| bitmap) &&& action
    if env.writeErr ≠ 0 then ⟨env.writeErr, some new_state⟩
    else ⟨0, some new_state⟩

/-- Function `close_pneu` (pneu.c lines 129-159): dispatch on the mechanism
character; the `set_valves` return values are discarded by the C code
(we record each call's result in the second component), and the function
returns `GREATERPROMPT` for every recognized mechanism, `ERRORPROMPT`
otherwise.  `env1` feeds the first `set_valves` call and `env2` the
second one of the `'b'` case. -/
def close_pneu (mech : Char) (env1 env2 : RMWEnv) : Nat × List ValveRes :=
  match mech with
  | 'b' => (GREATERPROMPT,
      [set_valves LEFTBM LEFTCLOSE env1, set_valves RIGHTBM RIGHTCLOSE env2])
  | 'l' => (GREATERPROMPT, [set_valves LEFTBM LEFTCLOSE env1])
  | 'r' => (GREATERPROMPT, [set_valves RIGHTBM RIGHTCLOSE env1])
  | 's' => (GREATERPROMPT, [set_valves SHUTTERBM SHUTTERCLOSE env1])
  | _ => (ERRORPROMPT, [])

/-- Function `open_pneu` (pneu.c lines 177-206): same shape as `close_pneu` with
the OPEN patterns. -/
def open_pneu (mech : Char) (env1 env2 : RMWEnv) : Nat × List ValveRes :=
  match mech with
  | 'b' => (GREATERPROMPT,
      [set_valves LEFTBM LEFTOPEN env1, set_valves RIGHTBM RIGHTOPEN env2])
  | 'l' => (GREATERPROMPT, [set_valves LEFTBM LEFTOPEN env1])
  | 'r' => (GREATERPROMPT, [set_valves RIGHTBM RIGHTOPEN env1])
  | 's' => (GREATERPROMPT, [set_valves SHUTTERBM SHUTTEROPEN env1])
  | _ => (ERRORPROMPT, [])

/-! ## DS3231 clock conversions: `specMech/ds3231.c` -/

/-- One BCD register byte assembled by `convert_iso2ds` from two ISO
digit characters: `((c1 - '0') << 4) | (c2 - '0')`, truncated to
`uint8_t`.  (The C `int` intermediates agree with this `Nat` form on the
ASCII-digit inputs the driver is given.) -/
def iso2dsByte (c1 c2 : Char) : Nat :=
  (((c1.toNat - 48) <<< 4) ||| (c2.toNat - 48)) % 256

/-- Function `convert_iso2ds` (ds3231.c lines 51-63): build the 7 DS3231 registers
`[sec, min, hour, day-of-week (fixed 1), date, month, year]` from the
fixed character positions of `YYYY-MM-DDThh:mm:ssZ`. -/
def convert_iso2ds (isotime : List Char) : List Nat :=
  let at_ := fun i => isotime.getD i nullChar
  [iso2dsByte (at_ 17) (at_ 18),
   iso2dsByte (at_ 14) (at_ 15),
   iso2dsByte (at_ 11) (at_ 12),
   1,
   iso2dsByte (at_ 8) (at_ 9),
   iso2dsByte (at_ 5) (at_ 6),
   iso2dsByte (at_ 2) (at_ 3)]

/-- One lowercase hexadecimal digit, as produced by `sprintf "%02x"`. -/
def hexDigitLower (n : Nat) : Char :=
  if n < 10 then Char.ofNat (48 + n) else Char.ofNat (87 + n)

/-- The two characters `sprintf "%02x"` produces for a byte value. -/
def hex2lower (n : Nat) : List Char :=
  [hexDigitLower (n / 16), hexDigitLower (n % 16)]

/-- Function `convert_ds2iso` (ds3231.c lines 27-42): print
`"20%02x-%02x-%02xT%02x:%02x:%02xZ"` from `year, month, date, hours,
minutes, seconds` (register indices 6,5,4,2,1,0; the day-of-week byte at
index 3 is skipped by the dummy assignment). -/
def convert_ds2iso (ds3231time : List Nat) : List Char :=
  let g := fun i => ds3231time.getD i 0
  ['2', '0'] ++ hex2lower (g 6) ++ ['-'] ++ hex2lower (g 5) ++ ['-'] ++
    hex2lower (g 4) ++ ['T'] ++ hex2lower (g 2) ++ [':'] ++ hex2lower (g 1) ++
    [':'] ++ hex2lower (g 0) ++ ['Z']

/-- The ASCII character for a decimal digit value. -/
def digitChar (d : Nat) : Char := Char.ofNat (48 + d)

/-! ## Dispatcher: `specMech/main.c` `commands` / `report` / `set` /
`send_prompt`, with `format_ERR` from `specMechOLD/nmea.c` -/

/-- The return value of `set` (main.c lines 374-393) paired with the
DS3231 register write that `put_time` (ds3231.c lines 95-106) issues when
called: for object `'t'`, a value of length exactly 19 leads to
`put_time(cvalue)` (whose own return code `set` discards) and
`GREATERPROMPT`; any other length, or any other object, yields
`ERRORPROMPT` with no clock write. -/
def set (p : ParsedCMD) : Nat × Option (List Nat) :=
  match p.cobject with
  | 't' =>
      if p.cvalue.length ≠ 19 then (ERRORPROMPT, none)
      else (GREATERPROMPT, some (convert_iso2ds p.cvalue))
  | _ => (ERRORPROMPT, none)

/-- The return value of `report` (main.c lines 253-317): the recognized
objects `B`, `e`, `t`, `v`, `V` format and transmit a sentence and return
`GREATERPROMPT`; anything else returns `ERRORPROMPT`.  (The sentence
contents mix in sensor floats and are not needed by any claim.) -/
def report_prompt (object : Char) : Nat :=
  match object with
  | 'B' => GREATERPROMPT
  | 'e' => GREATERPROMPT
  | 't' => GREATERPROMPT
  | 'v' => GREATERPROMPT
  | 'V' => GREATERPROMPT
  | _ => ERRORPROMPT

/-- Function `format_ERR` (nmea.c lines 33-41): the sentence `$S<specID>ERR` with
the NMEA checksum appended. -/
def format_ERR (specID : Nat) : List Char :=
  checksum_NMEA ('$' :: 'S' :: Nat.toDigits 10 specID ++ ['E', 'R', 'R'])

/-- Function `send_prompt` (main.c lines 328-361): the sequence of strings written
to the USART for a prompt flag — `>` for `GREATERPROMPT`, the `ERR`
sentence then `>` for `ERRORPROMPT`, and `!` for `EXCLAIMPROMPT` and for
the default case. -/
def send_prompt (specID : Nat) (prompt_flag : Nat) : List (List Char) :=
  if prompt_flag = GREATERPROMPT then [['>']]
  else if prompt_flag = ERRORPROMPT then [format_ERR specID, ['>']]
  else if prompt_flag = EXCLAIMPROMPT then [['!']]
  else [['!']]

/-- Device-dependent inputs of one `commands` dispatch: the outcomes of
the up to two port-expander read-modify-writes a `c`/`o` command can
perform. -/
structure CmdEnv where
  e1 : RMWEnv
  e2 : RMWEnv
deriving DecidableEq, Repr

/-- Observable result of the post-unlock part of `commands` (main.c lines
119-152) on one input line: the new `cstack` cursor, whether `reboot()`
was invoked, the prompt flag handed to `send_prompt` (`none` when the
`'R'` branch returned before reaching it), the `set_valves` results of a
`c`/`o` dispatch, and the DS3231 write issued by an `s` dispatch. -/
structure StepRes where
  cstack : Nat
  rebooted : Bool
  promptSent : Option Nat
  valveCalls : List ValveRes
  clockWrite : Option (List Nat)
deriving DecidableEq, Repr

/-- The post-unlock body of `commands` (main.c lines 119-152): parse the
line into slot `cstack`, switch on the verb (`c`, `o`, `r`, `s`, `R`,
default error), then advance `cstack = (cstack + 1) % CSTACKSIZE` and
send the prompt — except that the `'R'` branch calls `reboot()` and
returns before either of those. -/
def commands_step (cstack : Nat) (line : List Char) (env : CmdEnv) : StepRes :=
  let p := parse_cmd line
  if p.cverb = 'c' then
    let r := close_pneu p.cobject env.e1 env.e2
    ⟨(cstack + 1) % CSTACKSIZE, false, some r.1, r.2, none⟩
  else if p.cverb = 'o' then
    let r := open_pneu p.cobject env.e1 env.e2
    ⟨(cstack + 1) % CSTACKSIZE, false, some r.1, r.2, none⟩
  else if p.cverb = 'r' then
    ⟨(cstack + 1) % CSTACKSIZE, false, some (report_prompt p.cobject), [], none⟩
  else if p.cverb = 's' then
    let r := set p
    ⟨(cstack + 1) % CSTACKSIZE, false, some r.1, [], r.2⟩
  else if p.cverb = 'R' then
    ⟨cstack, true, none, [], none⟩
  else
    ⟨(cstack + 1) % CSTACKSIZE, false, some ERRORPROMPT, [], none⟩

/-- Folding `commands_step` over a sequence of post-unlock input lines,
tracking only the queue cursor. -/
def runAll (cstack : Nat) : List (List Char × CmdEnv) → Nat
  | [] => cstack
  | (line, env) :: rest => runAll (commands_step cstack line env).cstack rest

/-! ## Reboot-acknowledgment gate -/

/-- Observable outcome of one locked-gate check on an input line:
whether the gate is still locked afterwards, the prompt flag sent (if
any), whether `reboot()` was invoked, and the function's YES/NO return
(YES lets `commands` proceed to dispatch). -/
structure GateRes where
  lockedAfter : Bool
  promptSent : Option Nat
  reset : Bool
  ackYes : Bool
deriving DecidableEq, Repr

/-- Function `rebootACKd` (2021-03-08 commands.c lines 260-284) while
`rebootnack` is set: the exact line `"!"` (first byte `'!'`, second byte
the terminator) sends `GREATERPROMPT`, clears `rebootnack` and returns
YES; a line starting with `'!'` but longer calls `reboot()` and returns
NO; anything else sends `EXCLAIMPROMPT` and returns NO.  When
`rebootnack` is already clear it returns YES with no side effect. -/
def rebootACKd (locked : Bool) (line : List Char) : GateRes :=
  if locked then
    let c0 := line.getD 0 nullChar
    let c1 := line.getD 1 nullChar
    if c0 = '!' && c1 = nullChar then ⟨false, some GREATERPROMPT, false, true⟩
    else if c0 = '!' then ⟨true, none, true, false⟩
    else ⟨true, some EXCLAIMPROMPT, false, false⟩
  else ⟨false, none, false, true⟩

/-- The inline gate of `commands` in `specMech/main.c` (lines 107-117)
while `rebootnack` is set: a line whose first byte is not `'!'` sends
`EXCLAIMPROMPT` and stays locked; any line whose first byte is `'!'`
(trailing bytes or not) sends `GREATERPROMPT` and clears `rebootnack`.
Both branches return before dispatch, and `reboot()` is never called. -/
def mainGate (line : List Char) : GateRes :=
  if line.getD 0 nullChar ≠ '!' then ⟨true, some EXCLAIMPROMPT, false, false⟩
  else ⟨false, some GREATERPROMPT, false, false⟩

/-! ## Two-wire driver transactions: `specMech/mcp23008.c` and
`specMech/ds3231.c` over the `twi.c` primitives -/

/-- A bus primitive performed by a driver transaction, in order. -/
inductive TWIEvent
  | start
  | write
  | read
  | stop
deriving DecidableEq, Repr

/-- Function `read_MCP23008` (mcp23008.c lines 47-68), with `e1, e2, e3` the
return codes of its `start_TWI(addr, TWIWRITE)`, `write_TWI(reg)` and
`start_TWI(addr, TWIREAD)` calls and `data` the byte `readlast_TWI()`
delivers; `err` is the incoming `specMechErrors` global.  On any failing
step it sets the MCP23008 error bit and returns the updated
`specMechErrors` immediately — without calling `stop_TWI()`.  Returns
(return code, delivered byte if any, trace of bus primitives). -/
def read_MCP23008 (err e1 e2 e3 data : Nat) :
    Nat × Option Nat × List TWIEvent :=
  if e1 ≠ 0 then (err ||| 1, none, [.start])
  else if e2 ≠ 0 then (err ||| 1, none, [.start, .write])
  else if e3 ≠ 0 then (err ||| 1, none, [.start, .write, .start])
  else (0, some data, [.start, .write, .start, .read, .stop])

/-- Function `write_MCP23008` (mcp23008.c lines 83-103), with `e1, e2, e3` the
return codes of `start_TWI(addr, TWIWRITE)`, `write_TWI(reg)` and
`write_TWI(val)`: every path, failing or not, calls `stop_TWI()`. -/
def write_MCP23008 (e1 e2 e3 : Nat) : Nat × List TWIEvent :=
  if e1 ≠ 0 then (e1, [.start, .stop])
  else if e2 ≠ 0 then (e2, [.start, .write, .stop])
  else if e3 ≠ 0 then (e3, [.start, .write, .write, .stop])
  else (0, [.start, .write, .write, .stop])

/-- Function `read_DS3231` (ds3231.c lines 140-162), with `e1, e2, e3` the return
codes of `start_TWI(addr, 0)`, `write_TWI(&reg, 1)` and
`start_TWI(DS3231ADDR, 1)`: every path calls `stop_TWI()`. -/
def read_DS3231 (e1 e2 e3 : Nat) : Nat × List TWIEvent :=
  if e1 ≠ 0 then (e1, [.start, .stop])
  else if e2 ≠ 0 then (e2, [.start, .write, .stop])
  else if e3 ≠ 0 then (e3, [.start, .write, .start, .stop])
  else (0, [.start, .write, .start, .read, .stop])

/-- Function `write_DS3231` (ds3231.c lines 176-199), with `e1, e2, e3` the
return codes of `start_TWI(addr, TWIWRITE)`, `write_TWI(&reg, 1)` and
`write_TWI(ds3231time, 7)`: each failing step returns immediately
without calling `stop_TWI()`; only the success path stops the bus. -/
def write_DS3231 (e1 e2 e3 : Nat) : Nat × List TWIEvent :=
  if e1 ≠ 0 then (e1, [.start])
  else if e2 ≠ 0 then (e2, [.start, .write])
  else if e3 ≠ 0 then (e3, [.start, .write, .write])
  else (0, [.start, .write, .write, .stop])

/-! ## Byte-accurate buffer writes of `parse_cmd` (for the truncation
claim): every store into `cvalue`/`cid` with its index -/

/-- The value loop of `parse_cmd` at the granularity of buffer stores:
fuel counts the remaining loop iterations, `i` is the current write
index.  Yields the `(index, byte)` stores into `cvalue` and the
unconsumed input as in `valueLoop`. -/
def valueWrites : Nat → Nat → List Char → List (Nat × Char) × Option (List Char)
  | 0, _, rest => ([], some rest)
  | _ + 1, i, [] => ([(i, nullChar)], none)
  | n + 1, i, c :: cs =>
      if c = ';' then ([(i, nullChar)], some (c :: cs))
      else
        let r := valueWrites n (i + 1) cs
        ((i, c) :: r.1, r.2)

/-- The id loop of `parse_cmd` at the granularity of buffer stores. -/
def idWrites : Nat → Nat → List Char → List (Nat × Char)
  | 0, _, _ => []
  | _ + 1, i, [] => [(i, nullChar)]
  | n + 1, i, c :: cs => (i, c) :: idWrites n (i + 1) cs

/-- All stores `parse_cmd` performs into the `cvalue` and `cid` buffers
of the current slot, in order, including the initial
`cvalue[0] = '\0'` / `cid[0] = '\0'` clears (main.c lines 174-177). -/
def parse_writes (line : List Char) : List (Nat × Char) × List (Nat × Char) :=
  let clears : List (Nat × Char) × List (Nat × Char) :=
    ([(0, nullChar)], [(0, nullChar)])
  match skipToLetter line with
  | none => clears
  | some (_, rest1) =>
    match skipToLetter rest1 with
    | none => clears
    | some (_, rest2) =>
      match valueWrites CVALUESIZE 0 rest2 with
      | (vw, none) => (clears.1 ++ vw, clears.2)
      | (vw, some r) =>
          (clears.1 ++ vw, clears.2 ++ idWrites CIDSIZE 0 (r.drop 1))

/-- Replay a list of `(index, byte)` stores on a buffer of the given
size whose prior (stale) contents are `init`. -/
def applyWrites (size : Nat) (init : Char) (ws : List (Nat × Char)) : List Char :=
  ws.foldl (fun buf w => buf.set w.1 w.2) (List.replicate size init)

/-! ## Theorems -/

/-- The checksum loop keeps its `uint8_t` accumulator below 256 at every
step, so the final checksum is a genuine byte value. -/
theorem xorFold_lt_256 (l : List Char) :
    ∀ a, a < 256 → l.foldl (fun a c => Nat.xor a (c.toNat % 256)) a < 256 := by
  induction l with
  | nil => intro a ha; exact ha
  | cons c cs ih =>
      intro a ha
      have hc : c.toNat % 256 < 256 := Nat.mod_lt _ (by decide)
      have hx : Nat.xor a (c.toNat % 256) < 256 := by
        have := Nat.xor_lt_two_pow (n := 8) ha hc
        simpa using this
      exact ih _ hx

theorem xorChecksum_lt_256 (s : List Char) : xorChecksum s < 256 :=
  xorFold_lt_256 (s.drop 1) 0 (by decide)

set_option maxRecDepth 10000 in
/-- Rendering a byte with `%02X` gives two uppercase hexadecimal digits
that read back to the byte. -/
theorem byte_hex_roundtrip : ∀ n < 256,
    hexCharVal (hexDigitUpper (n / 16)) * 16 + hexCharVal (hexDigitUpper (n % 16)) = n ∧
    isUpperHexDigit (hexDigitUpper (n / 16)) = true ∧
    isUpperHexDigit (hexDigitUpper (n % 16)) = true := by decide

/-- C3: every sentence finished by `checksum_NMEA` is the body followed
by `*`, two uppercase hexadecimal digits, CR and LF; the two digits
render the 8-bit XOR of the body bytes from index 1 on (the leading `$`
excluded), and that same XOR reads the two digits back exactly. -/
theorem checksum_sentence_roundtrip (rest : List Char) :
    checksum_NMEA ('$' :: rest)
      = ('$' :: rest) ++
        ['*', hexDigitUpper (xorChecksum ('$' :: rest) / 16),
          hexDigitUpper (xorChecksum ('$' :: rest) % 16), '\r', '\n'] ∧
    xorChecksum ('$' :: rest)
      = rest.foldl (fun a c => Nat.xor a (c.toNat % 256)) 0 ∧
    xorChecksum ('$' :: rest) < 256 ∧
    isUpperHexDigit (hexDigitUpper (xorChecksum ('$' :: rest) / 16)) = true ∧
    isUpperHexDigit (hexDigitUpper (xorChecksum ('$' :: rest) % 16)) = true ∧
    hexCharVal (hexDigitUpper (xorChecksum ('$' :: rest) / 16)) * 16 +
        hexCharVal (hexDigitUpper (xorChecksum ('$' :: rest) % 16))
      = xorChecksum ('$' :: rest) := by
  have hlt : xorChecksum ('$' :: rest) < 256 := xorChecksum_lt_256 _
  obtain ⟨h1, h2, h3⟩ := byte_hex_roundtrip (xorChecksum ('$' :: rest)) hlt
  refine ⟨by simp [checksum_NMEA, hex2upper], rfl, hlt, h2, h3, h1⟩

set_option maxRecDepth 40000 in
/-- C4: a single valve actuation hands the port-expander write exactly
`new = (old | setMask) & actionMask`; for the Left cylinder (open or
close) that byte agrees with the old one on the Shutter bit pair (mask
`0x22`) and on the Right bit pair (mask `0x88`). -/
theorem left_actuation_preserves_other_bits (old : Nat) (h : old < 256) :
    (∀ bitmap action,
      (set_valves bitmap action ⟨0, old, 0⟩).written
        = some ((old ||| bitmap) &&& action)) ∧
    ((old ||| LEFTBM) &&& LEFTOPEN) &&& SHUTTERBM = old &&& SHUTTERBM ∧
    ((old ||| LEFTBM) &&& LEFTOPEN) &&& RIGHTBM = old &&& RIGHTBM ∧
    ((old ||| LEFTBM) &&& LEFTCLOSE) &&& SHUTTERBM = old &&& SHUTTERBM ∧
    ((old ||| LEFTBM) &&& LEFTCLOSE) &&& RIGHTBM = old &&& RIGHTBM := by
  refine ⟨fun bitmap action => rfl, ?_⟩
  revert h
  revert old
  decide

/-- Witness for `left_actuation_preserves_other_bits` at the valve byte
`0x5D`. -/
theorem left_actuation_preserves_other_bits_witness :
    (set_valves LEFTBM LEFTOPEN ⟨0, 0x5D, 0⟩).written
        = some ((0x5D ||| LEFTBM) &&& LEFTOPEN) ∧
    ((0x5D ||| LEFTBM) &&& LEFTOPEN) &&& SHUTTERBM = 0x5D &&& SHUTTERBM := by
  have h := left_actuation_preserves_other_bits 0x5D (by decide)
  exact ⟨h.1 LEFTBM LEFTOPEN, h.2.1⟩

/-- C2 (code bug evaluated): closing the shutter while the port-expander
read fails with a bus error (`read_MCP23008` returned 1): `set_valves`
reports the error, but `close_pneu` discards it and the dispatch outcome
is the Normal prompt (`GREATERPROMPT`), not the Error prompt class. -/
theorem close_pneu_discards_bus_error :
    (set_valves SHUTTERBM SHUTTERCLOSE ⟨1, 0, 0⟩).retval = 1 ∧
    (1 : Nat) ≠ 0 ∧
    (close_pneu 's' ⟨1, 0, 0⟩ ⟨0, 0, 0⟩).1 = GREATERPROMPT ∧
    (commands_step 0 ['c', 's'] ⟨⟨1, 0, 0⟩, ⟨0, 0, 0⟩⟩).promptSent
      = some GREATERPROMPT ∧
    GREATERPROMPT ≠ ERRORPROMPT := by decide

/-- C7: for a set command with object `'t'`, the clock write is issued
if and only if the parsed value is exactly 19 characters long; on any
other length the outcome is the Error prompt class and no clock write
occurs. -/
theorem set_clock_write_iff (p : ParsedCMD) (h : p.cobject = 't') :
    ((set p).2 ≠ none ↔ p.cvalue.length = 19) ∧
    (p.cvalue.length = 19 →
      set p = (GREATERPROMPT, some (convert_iso2ds p.cvalue))) ∧
    (p.cvalue.length ≠ 19 → set p = (ERRORPROMPT, none)) := by
  obtain ⟨v, o, val, id⟩ := p
  simp only at h
  subst h
  by_cases hl : val.length = 19 <;> simp [set, hl]

/-- Witness for `set_clock_write_iff`: a 19-character value triggers the
clock write; a 3-character value yields the error prompt and no write. -/
theorem set_clock_write_iff_witness :
    (SpecMech.set ⟨'s', 't',
        ['2','0','2','1','-','0','1','-','2','4','T','1','0',':','0','0',':','0','0'],
        []⟩).2 ≠ none ∧
    SpecMech.set ⟨'s', 't', ['a','b','c'], []⟩ = (ERRORPROMPT, none) :=
  ⟨((set_clock_write_iff _ rfl).1).mpr (by decide),
   (set_clock_write_iff _ rfl).2.2 (by decide)⟩

/-- C8: a parsed verb matching no entry of the verb table (the parser's
`'?'` sentinel included) makes dispatch yield the Error prompt class, and
`send_prompt` turns the Error prompt class into exactly one `ERR`
sentence followed by the normal `>` ready prompt. -/
theorem unknown_verb_error_prompt (cstack : Nat) (line : List Char)
    (env : CmdEnv) (specID : Nat)
    (h : (parse_cmd line).cverb ∉ (['c', 'o', 'r', 's', 'R'] : List Char)) :
    (commands_step cstack line env).promptSent = some ERRORPROMPT ∧
    send_prompt specID ERRORPROMPT = [format_ERR specID, ['>']] := by
  constructor
  · unfold commands_step
    dsimp only
    split_ifs <;> simp_all
  · simp [send_prompt, GREATERPROMPT, ERRORPROMPT]

/-- Witness for `unknown_verb_error_prompt` on the spec's scenario line
`"zz"`. -/
theorem unknown_verb_error_prompt_witness :
    (commands_step 0 ['z', 'z'] ⟨⟨0, 0, 0⟩, ⟨0, 0, 0⟩⟩).promptSent
      = some ERRORPROMPT ∧
    send_prompt 1 ERRORPROMPT = [format_ERR 1, ['>']] :=
  unknown_verb_error_prompt 0 ['z', 'z'] ⟨⟨0, 0, 0⟩, ⟨0, 0, 0⟩⟩ 1 (by decide)

/-- C5 (amended): for every post-unlock line whose parsed verb is not
the reboot verb `'R'`, the dispatcher advances the queue cursor exactly
once modulo the capacity 10, whatever the outcome; over a sequence of
such lines the cursor therefore wraps modulo 10, so the 11th command
reuses slot 0.  A reboot line resets the processor without advancing. -/
theorem cursor_advances_once_mod_capacity :
    (∀ cstack line env, (parse_cmd line).cverb ≠ 'R' →
      (commands_step cstack line env).cstack = (cstack + 1) % CSTACKSIZE ∧
      (commands_step cstack line env).rebooted = false) ∧
    (∀ lines : List (List Char × CmdEnv),
      (∀ le ∈ lines, (parse_cmd le.1).cverb ≠ 'R') →
      ∀ cstack, cstack < CSTACKSIZE →
        runAll cstack lines = (cstack + lines.length) % CSTACKSIZE) := by
  have hstep : ∀ cstack line env, (parse_cmd line).cverb ≠ 'R' →
      (commands_step cstack line env).cstack = (cstack + 1) % CSTACKSIZE ∧
      (commands_step cstack line env).rebooted = false := by
    intro cstack line env h
    unfold commands_step
    dsimp only
    split_ifs <;> simp_all
  refine ⟨hstep, ?_⟩
  intro lines
  induction lines with
  | nil =>
      intro _ cstack hc
      simpa [runAll] using (Nat.mod_eq_of_lt hc).symm
  | cons le rest ih =>
      intro hall cstack hc
      obtain ⟨l, e⟩ := le
      have h1 := hstep cstack l e (hall (l, e) (by simp))
      rw [runAll, h1.1, ih (fun x hx => hall x (by simp [hx]))
        ((cstack + 1) % CSTACKSIZE) (Nat.mod_lt _ (by decide))]
      simp only [List.length_cons, CSTACKSIZE]
      omega

/-- Witness for `cursor_advances_once_mod_capacity`: an `"os"` command
advances the cursor from 0 to 1, and ten of them in a row return the
cursor to slot 0 for the 11th command. -/
theorem cursor_advances_once_mod_capacity_witness :
    (commands_step 0 ['o', 's'] ⟨⟨0, 0, 0⟩, ⟨0, 0, 0⟩⟩).cstack
      = (0 + 1) % CSTACKSIZE ∧
    runAll 0 (List.replicate 10 (['o', 's'], ⟨⟨0, 0, 0⟩, ⟨0, 0, 0⟩⟩))
      = (0 + 10) % CSTACKSIZE := by
  constructor
  · exact (cursor_advances_once_mod_capacity.1 0 ['o', 's'] _ (by decide)).1
  · have := cursor_advances_once_mod_capacity.2
      (List.replicate 10 (['o', 's'], ⟨⟨0, 0, 0⟩, ⟨0, 0, 0⟩⟩))
      (by decide) 0 (by decide)
    simpa using this

/-- C5 (counterexample to the unqualified claim): a reboot line `"R"`
is dispatched with the cursor at 0 and leaves the cursor at 0 — not at
`(0 + 1) % 10` — because the `'R'` branch resets the processor and
returns before the cursor-advance statement. -/
theorem reboot_line_does_not_advance_cursor :
    (commands_step 0 ['R'] ⟨⟨0, 0, 0⟩, ⟨0, 0, 0⟩⟩).cstack = 0 ∧
    (commands_step 0 ['R'] ⟨⟨0, 0, 0⟩, ⟨0, 0, 0⟩⟩).rebooted = true ∧
    (0 : Nat) ≠ (0 + 1) % CSTACKSIZE := by decide

/-- C1 (amended, for the `rebootACKd` gate of 2021-03-08 commands.c):
while the gate is locked, exactly the single-character line `"!"` unlocks
it (sending the `>` prompt); a line beginning with `'!'` followed by
extra characters resets the processor without unlocking; every other
line re-emits the awaiting `!` prompt with the gate still locked. -/
theorem rebootACKd_gate_characterization (line : List Char)
    (h : nullChar ∉ line) :
    ((rebootACKd true line).lockedAfter = false ↔ line = ['!']) ∧
    (line = ['!'] →
      rebootACKd true line = ⟨false, some GREATERPROMPT, false, true⟩) ∧
    (line.getD 0 nullChar = '!' → line ≠ ['!'] →
      rebootACKd true line = ⟨true, none, true, false⟩) ∧
    (line.getD 0 nullChar ≠ '!' →
      rebootACKd true line = ⟨true, some EXCLAIMPROMPT, false, false⟩) := by
  match line with
  | [] => simp [rebootACKd, nullChar]
  | [c] =>
      by_cases hc : c = '!'
      · subst hc; simp [rebootACKd, nullChar]
      · simp [rebootACKd, nullChar, hc]
  | c :: c2 :: cs =>
      have h2 : c2 ≠ nullChar := by
        intro heq; exact h (by simp [heq])
      by_cases hc : c = '!'
      · subst hc
        simp [rebootACKd, h2]
      · simp [rebootACKd, nullChar, hc]

/-- Witness for `rebootACKd_gate_characterization` at the exact
acknowledgment line `"!"`. -/
theorem rebootACKd_gate_characterization_witness :
    rebootACKd true ['!'] = ⟨false, some GREATERPROMPT, false, true⟩ :=
  (rebootACKd_gate_characterization ['!'] (by decide)).2.1 rfl

/-- C1 (counterexample on the inline gate of `specMech/main.c`): the
locked-state check there tests only the first byte, so the line `"!x"` —
`'!'` with extra trailing characters — unlocks the gate and triggers no
processor reset, contradicting the claim for this implementation of the
reboot-acknowledgment gate. -/
theorem mainGate_unlocks_on_bang_with_extra :
    (mainGate ['!', 'x']).lockedAfter = false ∧
    (mainGate ['!', 'x']).reset = false ∧
    (['!', 'x'] : List Char) ≠ ['!'] := by decide

/-- C9 (amended): `write_MCP23008` and `read_DS3231` end every path —
failing or not — with the bus stop operation, but `read_MCP23008` and
`write_DS3231` return from each failing step without ever issuing a
stop, leaving the bus mid-transaction on those error paths. -/
theorem twi_stop_discipline :
    (∀ e1 e2 e3 : Nat,
      ((write_MCP23008 e1 e2 e3).2).getLast? = some TWIEvent.stop) ∧
    (∀ e1 e2 e3 : Nat,
      ((read_DS3231 e1 e2 e3).2).getLast? = some TWIEvent.stop) ∧
    (∀ err e1 e2 e3 data : Nat, (read_MCP23008 err e1 e2 e3 data).1 ≠ 0 →
      TWIEvent.stop ∉ (read_MCP23008 err e1 e2 e3 data).2.2) ∧
    (∀ e1 e2 e3 : Nat, (write_DS3231 e1 e2 e3).1 ≠ 0 →
      TWIEvent.stop ∉ (write_DS3231 e1 e2 e3).2) := by
  refine ⟨?_, ?_, ?_, ?_⟩
  · intro e1 e2 e3
    unfold write_MCP23008
    split_ifs <;> rfl
  · intro e1 e2 e3
    unfold read_DS3231
    split_ifs <;> rfl
  · intro err e1 e2 e3 data h
    unfold read_MCP23008 at h ⊢
    split_ifs at h ⊢ <;> simp_all
  · intro e1 e2 e3 h
    unfold write_DS3231 at h ⊢
    split_ifs at h ⊢ <;> simp_all

/-- Witness for `twi_stop_discipline` at concrete failing steps. -/
theorem twi_stop_discipline_witness :
    ((write_MCP23008 0 5 0).2).getLast? = some TWIEvent.stop ∧
    TWIEvent.stop ∉ (read_MCP23008 0 5 0 0 0).2.2 ∧
    TWIEvent.stop ∉ (write_DS3231 0 0 7).2 :=
  ⟨twi_stop_discipline.1 0 5 0,
   twi_stop_discipline.2.2.1 0 5 0 0 0 (by decide),
   twi_stop_discipline.2.2.2 0 0 7 (by decide)⟩

/-- C9 (counterexample to the universal claim): with the first bus step
failing (code 2), `read_MCP23008` reports an error but its trace contains
no stop event, and likewise `write_DS3231` with its second write step
failing (code 3) — the first failing step does not lead to a bus stop in
these two drivers. -/
theorem twi_error_paths_without_stop :
    (read_MCP23008 0 2 0 0 0).1 ≠ 0 ∧
    TWIEvent.stop ∉ (read_MCP23008 0 2 0 0 0).2.2 ∧
    (write_DS3231 0 3 0).1 ≠ 0 ∧
    TWIEvent.stop ∉ (write_DS3231 0 3 0).2 := by decide

/-- C6 (code bug evaluated): parsing `"st"` followed by a 41-character
value field stores 41 data bytes into the 41-byte `cvalue` buffer — one
more than the 40-byte cap the spec states — and leaves no terminator
byte anywhere in the buffer, so the stored value is not null-terminated
(all stores do stay inside the buffer bounds, and no error is raised:
the parse result still carries verb `'s'`, object `'t'`). -/
theorem parse_overlong_value_unterminated :
    ((parse_writes (['s', 't'] ++ List.replicate 41 'x')).1.filter
        (fun w => w.2 ≠ nullChar)).length = 41 ∧
    (∀ w ∈ (parse_writes (['s', 't'] ++ List.replicate 41 'x')).1,
      w.1 < CVALUESIZE) ∧
    (∀ w ∈ (parse_writes (['s', 't'] ++ List.replicate 41 'x')).2,
      w.1 < CIDSIZE) ∧
    applyWrites CVALUESIZE nullChar
        (parse_writes (['s', 't'] ++ List.replicate 41 'x')).1
      = List.replicate 41 'x' ∧
    nullChar ∉ List.replicate 41 'x' ∧
    (parse_cmd (['s', 't'] ++ List.replicate 41 'x')).cverb = 's' ∧
    (parse_cmd (['s', 't'] ++ List.replicate 41 'x')).cobject = 't' ∧
    (parse_cmd (['s', 't'] ++ List.replicate 41 'x')).cvalue.length = 41 := by
  decide

/-- Every store of the value loop lands at an index below the starting
index plus the remaining fuel. -/
theorem valueWrites_index_lt (n : Nat) :
    ∀ (i : Nat) (rest : List Char), ∀ w ∈ (valueWrites n i rest).1,
      w.1 < i + n := by
  induction n with
  | zero => intro i rest w hw; simp [valueWrites] at hw
  | succ m ih =>
      intro i rest w hw
      match rest with
      | [] =>
          simp [valueWrites] at hw
          subst hw
          omega
      | c :: cs =>
          by_cases hc : c = ';'
          · simp [valueWrites, hc] at hw
            subst hw
            omega
          · simp only [valueWrites, if_neg hc, List.mem_cons] at hw
            rcases hw with rfl | hw
            · omega
            · have := ih (i + 1) cs w hw
              omega

/-- Every store of the id loop lands at an index below the starting
index plus the remaining fuel. -/
theorem idWrites_index_lt (n : Nat) :
    ∀ (i : Nat) (rest : List Char), ∀ w ∈ idWrites n i rest, w.1 < i + n := by
  induction n with
  | zero => intro i rest w hw; simp [idWrites] at hw
  | succ m ih =>
      intro i rest w hw
      match rest with
      | [] =>
          simp [idWrites] at hw
          subst hw
          omega
      | c :: cs =>
          simp only [idWrites, List.mem_cons] at hw
          rcases hw with rfl | hw
          · omega
          · have := ih (i + 1) cs w hw
            omega

/-- For every input line, each store `parse_cmd` performs stays inside
the 41-byte `cvalue` buffer respectively the 9-byte `cid` buffer: the
parser never writes outside its fixed-size destinations. -/
theorem parse_writes_in_bounds (line : List Char) :
    (∀ w ∈ (parse_writes line).1, w.1 < CVALUESIZE) ∧
    (∀ w ∈ (parse_writes line).2, w.1 < CIDSIZE) := by
  cases hs1 : skipToLetter line with
  | none => simp [parse_writes, hs1, CVALUESIZE, CIDSIZE]
  | some p1 =>
      obtain ⟨v, rest1⟩ := p1
      cases hs2 : skipToLetter rest1 with
      | none => simp [parse_writes, hs1, hs2, CVALUESIZE, CIDSIZE]
      | some p2 =>
          obtain ⟨o, rest2⟩ := p2
          rcases hvw : valueWrites CVALUESIZE 0 rest2 with ⟨vw, ropt⟩
          have hv : ∀ w ∈ vw, w.1 < CVALUESIZE := by
            intro w hw
            have hmem : w ∈ (valueWrites CVALUESIZE 0 rest2).1 := by
              rw [hvw]; exact hw
            have := valueWrites_index_lt CVALUESIZE 0 rest2 w hmem
            simpa using this
          cases ropt with
          | none =>
              refine ⟨?_, ?_⟩ <;>
                simp only [parse_writes, hs1, hs2, hvw, List.mem_append,
                  List.mem_singleton]
              · rintro w (rfl | hw)
                · simp [CVALUESIZE]
                · exact hv w hw
              · rintro w rfl
                simp [CIDSIZE]
          | some r =>
              refine ⟨?_, ?_⟩ <;>
                simp only [parse_writes, hs1, hs2, hvw, List.mem_append,
                  List.mem_singleton]
              · rintro w (rfl | hw)
                · simp [CVALUESIZE]
                · exact hv w hw
              · rintro w (rfl | hw)
                · simp [CIDSIZE]
                · have := idWrites_index_lt CIDSIZE 0 (r.drop 1) w hw
                  simpa using this

set_option maxRecDepth 40000 in
/-- A BCD register byte assembled from two decimal digit characters
prints back, under `%02x`, as exactly those two characters. -/
theorem bcd_digit_pair : ∀ a < 10, ∀ b < 10,
    hex2lower (iso2dsByte (digitChar a) (digitChar b))
      = [digitChar a, digitChar b] := by decide

/-- C10: converting a well-formed 20-character ISO time string (every
digit position a decimal digit, year starting `20`) to the 7 DS3231 BCD
registers and back reproduces the string exactly; the fixed day-of-week
register does not appear in the output. -/
theorem iso_ds_roundtrip
    (y1 y2 mo1 mo2 d1 d2 h1 h2 mi1 mi2 s1 s2 : Nat)
    (hy1 : y1 < 10) (hy2 : y2 < 10) (hmo1 : mo1 < 10) (hmo2 : mo2 < 10)
    (hd1 : d1 < 10) (hd2 : d2 < 10) (hh1 : h1 < 10) (hh2 : h2 < 10)
    (hmi1 : mi1 < 10) (hmi2 : mi2 < 10) (hs1 : s1 < 10) (hs2 : s2 < 10) :
    convert_ds2iso (convert_iso2ds
      ['2', '0', digitChar y1, digitChar y2, '-', digitChar mo1,
       digitChar mo2, '-', digitChar d1, digitChar d2, 'T', digitChar h1,
       digitChar h2, ':', digitChar mi1, digitChar mi2, ':', digitChar s1,
       digitChar s2, 'Z'])
      = ['2', '0', digitChar y1, digitChar y2, '-', digitChar mo1,
         digitChar mo2, '-', digitChar d1, digitChar d2, 'T', digitChar h1,
         digitChar h2, ':', digitChar mi1, digitChar mi2, ':', digitChar s1,
         digitChar s2, 'Z'] := by
  have hstep : convert_ds2iso (convert_iso2ds
      ['2', '0', digitChar y1, digitChar y2, '-', digitChar mo1,
       digitChar mo2, '-', digitChar d1, digitChar d2, 'T', digitChar h1,
       digitChar h2, ':', digitChar mi1, digitChar mi2, ':', digitChar s1,
       digitChar s2, 'Z'])
      = ['2', '0'] ++ hex2lower (iso2dsByte (digitChar y1) (digitChar y2))
        ++ ['-'] ++ hex2lower (iso2dsByte (digitChar mo1) (digitChar mo2))
        ++ ['-'] ++ hex2lower (iso2dsByte (digitChar d1) (digitChar d2))
        ++ ['T'] ++ hex2lower (iso2dsByte (digitChar h1) (digitChar h2))
        ++ [':'] ++ hex2lower (iso2dsByte (digitChar mi1) (digitChar mi2))
        ++ [':'] ++ hex2lower (iso2dsByte (digitChar s1) (digitChar s2))
        ++ ['Z'] := rfl
  rw [hstep, bcd_digit_pair y1 hy1 y2 hy2, bcd_digit_pair mo1 hmo1 mo2 hmo2,
    bcd_digit_pair d1 hd1 d2 hd2, bcd_digit_pair h1 hh1 h2 hh2,
    bcd_digit_pair mi1 hmi1 mi2 hmi2, bcd_digit_pair s1 hs1 s2 hs2]
  rfl

/-- Witness for `iso_ds_roundtrip` at the digits of
`2021-01-24T10:00:00Z`. -/
theorem iso_ds_roundtrip_witness :
    convert_ds2iso (convert_iso2ds
      ['2', '0', digitChar 2, digitChar 1, '-', digitChar 0, digitChar 1,
       '-', digitChar 2, digitChar 4, 'T', digitChar 1, digitChar 0, ':',
       digitChar 0, digitChar 0, ':', digitChar 0, digitChar 0, 'Z'])
      = ['2', '0', digitChar 2, digitChar 1, '-', digitChar 0, digitChar 1,
         '-', digitChar 2, digitChar 4, 'T', digitChar 1, digitChar 0, ':',
         digitChar 0, digitChar 0, ':', digitChar 0, digitChar 0, 'Z'] :=
  iso_ds_roundtrip 2 1 0 1 2 4 1 0 0 0 0 0 (by decide) (by decide)
    (by decide) (by decide) (by decide) (by decide) (by decide) (by decide)
    (by decide) (by decide) (by decide) (by decide)

end SpecMech
